import Mathlib

/-!
Shallow embedding of the GoLogger package (logger.go) and proofs of the
specification claims.

Modelling conventions:
* Go `Level` is an alias of `int`; it is embedded as `Int`.  The stored
  `level` field is a Go `int32`; the `int32(level)` conversions performed by
  the code are value-preserving on the whole range exercised by the spec and
  the claims, so integers are embedded unbounded.
* The output sink (`io.Writer`) is referenced, never owned; it is embedded as
  a handle (`Nat`) naming the destination, and the behaviour of a write is a
  function from handle and bytes to an optional error (the `Sink` type).
* The wall clock (`time.Now().Clock()`) is embedded by passing hour, minute
  and second explicitly to the functions that read it.
* The scratch buffer `l.buf` is truncated (`l.buf = l.buf[:0]`) at the start
  of every `printOut` call before being used, so its previous content never
  influences behaviour; it is therefore embedded as a value local to
  `printOut` rather than a field.
* `os.Exit(1)` is embedded as the `exitCode` field of `EmitResult`:
  `some 1` when the call terminates the process with status 1, `none` when
  the call returns normally.
* The variadic rendering helpers of package `fmt` are Go library code, not
  repository code; they are embedded on the fragment the claims exercise:
  `goSprintln` is `fmt.Sprintln` on string operands (operands joined by a
  single space, trailing newline appended), and the `s` argument of
  `logger.Print` and `logger.Printf` stands for the already rendered body
  (`fmt.Sprint(v...)` respectively `fmt.Sprintf(format, v...)`).
-/

/-- Level constant: `LevelQuiet Level = iota` (0). -/
def LevelQuiet : Int := 0

/-- Level constant: `LevelFatal` (1). -/
def LevelFatal : Int := 1

/-- Level constant: `LevelError` (2). -/
def LevelError : Int := 2

/-- Level constant: `LevelWarn` (3). -/
def LevelWarn : Int := 3

/-- Level constant: `LevelInfo` (4). -/
def LevelInfo : Int := 4

/-- Level constant: `LevelDebug` (5). -/
def LevelDebug : Int := 5

/-- Level constant: `LevelTrace` (6). -/
def LevelTrace : Int := 6

/-- Flag constant: `FlagColorMode = 1 << iota` (1). -/
def FlagColorMode : Int := 1

/-- The `levelPrefixes` map: the single-letter code prepended to every log
entry.  A level absent from the map yields `none` (Go map lookup of a missing
key yields the zero value, which the lookup sites take with `.getD`). -/
def levelPrefixes (l : Int) : Option String :=
  if l = LevelFatal then some "F"
  else if l = LevelError then some "E"
  else if l = LevelWarn then some "W"
  else if l = LevelInfo then some "I"
  else if l = LevelDebug then some "D"
  else if l = LevelTrace then some "T"
  else none

/-- The `levelColors` map: ANSI color start sequences used when
`FlagColorMode` is set. -/
def levelColors (l : Int) : Option String :=
  if l = LevelFatal then some "\x1b[31;1m"
  else if l = LevelError then some "\x1b[31m"
  else if l = LevelWarn then some "\x1b[33;1m"
  else if l = LevelInfo then some "\x1b[32m"
  else if l = LevelDebug then some "\x1b[34;1m"
  else if l = LevelTrace then some "\x1b[36m"
  else none

/-- Loop body of `iToA`: cheap integer to fixed-width decimal ASCII.  The Go
loop `for i >= 10 || wid > 1` assembles the decimal in reverse order; here it
is expressed by structural recursion on a fuel argument that strictly bounds
the number of iterations (each iteration strictly decreases `i + wid`, so
`i + wid + 1` units of fuel always suffice and the `0` branch is never
reached from `iToA`). -/
def iToAGo : Nat → Nat → Nat → List Char
  | 0, _, _ => []
  | fuel + 1, i, wid =>
    if 10 ≤ i ∨ 1 < wid then
      iToAGo fuel (i / 10) (wid - 1) ++ [Char.ofNat (48 + i % 10)]
    else
      [Char.ofNat (48 + i)]

/-- `iToA(buf, i, wid)` from the source, as the list of characters it appends
to the buffer. -/
def iToA (i wid : Nat) : List Char := iToAGo (i + wid + 1) i wid

/-- The `logger` struct: current level (atomic int32), prefix string, flags,
and the output sink handle.  The mutex and the scratch buffer carry no
observable state in the sequential embedding (see the module comment). -/
structure LoggerState where
  level : Int
  pfx : String
  flags : Int
  out : Nat
  deriving DecidableEq

/-- A sink behaviour: given the sink handle and the bytes of one write call,
the optional error the write returns. -/
abbrev Sink := Nat → List Char → Option String

/-- `SetLevel`: clamps the input into the valid range and stores it. -/
def logger.SetLevel (st : LoggerState) (level : Int) : LoggerState :=
  if level < LevelQuiet then { st with level := LevelQuiet }
  else if LevelTrace < level then { st with level := LevelTrace }
  else { st with level := level }

/-- `GetLevel`: atomically loads the current level. -/
def logger.GetLevel (st : LoggerState) : Int := st.level

/-- `SetFlags`. -/
def logger.SetFlags (st : LoggerState) (flags : Int) : LoggerState :=
  { st with flags := flags }

/-- `GetFlags`. -/
def logger.GetFlags (st : LoggerState) : Int := st.flags

/-- `SetPrefix`. -/
def logger.SetPrefix (st : LoggerState) (p : String) : LoggerState :=
  { st with pfx := p }

/-- `GetPrefix`. -/
def logger.GetPrefix (st : LoggerState) : String := st.pfx

/-- `SetOutput`. -/
def logger.SetOutput (st : LoggerState) (out : Nat) : LoggerState :=
  { st with out := out }

/-- `GetOutput`. -/
def logger.GetOutput (st : LoggerState) : Nat := st.out

/-- `buildHeader`: level letter (empty for unmapped levels), slash,
HH:MM:SS with `iToA _ 2`, space, prefix, colon, space. -/
def logger.buildHeader (level : Int) (p : String) (hh mm ss : Nat) : List Char :=
  ((levelPrefixes level).getD "").toList ++
    ('/' :: (iToA hh 2 ++ (':' :: (iToA mm 2 ++ (':' :: (iToA ss 2 ++
      (' ' :: (p.toList ++ [':', ' ']))))))))

/-- The ANSI start bytes `printOut` places before the header: present exactly
when the level has a color mapping and `FlagColorMode` is set. -/
def colorStartBytes (st : LoggerState) (level : Int) : List Char :=
  if (levelColors level).isSome && (st.flags.land FlagColorMode != 0) then
    ((levelColors level).getD "").toList
  else []

/-- The ANSI reset bytes `printOut` places after the line, under the same
condition as `colorStartBytes`. -/
def colorResetBytes (st : LoggerState) (level : Int) : List Char :=
  if (levelColors level).isSome && (st.flags.land FlagColorMode != 0) then
    "\x1b[0m".toList
  else []

/-- The byte sequence `printOut` assembles in `l.buf`, in append order:
optional color start, header, message body, a newline when the body is empty
or does not already end in a newline, optional color reset. -/
def renderLine (st : LoggerState) (level : Int) (s : String) (hh mm ss : Nat) :
    List Char :=
  colorStartBytes st level ++
    logger.buildHeader level st.pfx hh mm ss ++
    s.toList ++
    (if s.toList = [] ∨ s.toList.getLast? ≠ some '\n' then ['\n'] else []) ++
    colorResetBytes st level

/-- `printOut`: renders the line and performs the single write call on the
sink; the pair holds the bytes written and the error the write returned. -/
def logger.printOut (w : Sink) (st : LoggerState) (level : Int) (s : String)
    (hh mm ss : Nat) : List Char × Option String :=
  let buf := renderLine st level s hh mm ss
  (buf, w st.out buf)

/-- Observable outcome of one emission call: the bytes handed to the sink
(`none` when the call was gated out and wrote nothing), the process exit
(`some 1` when the call ends the process via `os.Exit(1)`, `none` when it
returns normally), and the instance state after the call.  The write error of
`printOut` is deliberately absent: the methods discard it (`_ = l.printOut`). -/
structure EmitResult where
  written : Option (List Char)
  exitCode : Option Nat
  final : LoggerState
  deriving DecidableEq

/-- The `Print` method.  `s` is the rendered body `fmt.Sprint(v...)`. -/
def logger.Print (w : Sink) (st : LoggerState) (level : Int) (s : String)
    (hh mm ss : Nat) : EmitResult :=
  if st.level < level then
    ⟨none, if level = LevelFatal then some 1 else none, st⟩
  else
    ⟨some (logger.printOut w st level s hh mm ss).1,
      if level = LevelFatal then some 1 else none, st⟩

/-- `fmt.Sprintln` on string operands: operands joined by a single space,
with a trailing newline. -/
def goSprintln (args : List String) : String :=
  String.intercalate " " args ++ "\n"

/-- The `Println` method.  `args` are the string operands, rendered with
`goSprintln`. -/
def logger.Println (w : Sink) (st : LoggerState) (level : Int)
    (args : List String) (hh mm ss : Nat) : EmitResult :=
  if st.level < level then
    ⟨none, if level = LevelFatal then some 1 else none, st⟩
  else
    ⟨some (logger.printOut w st level (goSprintln args) hh mm ss).1,
      if level = LevelFatal then some 1 else none, st⟩

/-- The `Printf` method.  `s` is the rendered body `fmt.Sprintf(format, v...)`.
Note the exit condition is `level <= LevelFatal`, unlike `Print`/`Println`. -/
def logger.Printf (w : Sink) (st : LoggerState) (level : Int) (s : String)
    (hh mm ss : Nat) : EmitResult :=
  if st.level < level then
    ⟨none, if level ≤ LevelFatal then some 1 else none, st⟩
  else
    ⟨some (logger.printOut w st level s hh mm ss).1,
      if level ≤ LevelFatal then some 1 else none, st⟩

/-- `New`: builds an instance with the given level, prefix, sink and flags.
The source stores `int32(level)` directly, without clamping. -/
def New (level : Int) (p : String) (out : Nat) (flags : Int) : LoggerState :=
  ⟨level, p, flags, out⟩

/-- The `Clone` method: a fresh instance built by `New` from a snapshot of
the current level, prefix, sink and flags. -/
def logger.Clone (st : LoggerState) : LoggerState :=
  New (logger.GetLevel st) st.pfx st.out st.flags

/-- The package-level default instance `std = New(LevelWarn, "", os.Stderr, 0)`;
standard error is sink handle 2. -/
def std : LoggerState := New LevelWarn "" 2 0

/-- `GetDefault` returns the shared default instance. -/
def GetDefault : LoggerState := std

/-- `NewDefault` returns a clone of the default instance. -/
def NewDefault : LoggerState := logger.Clone std

/-- The package-level free function `Println(level, format, v...)`.  As
written in the source its body is `std.Printf(level, format, v...)`: it
forwards to the Printf method of the default instance.  `st` is the current
state of the shared default instance; the embedding covers an empty variadic
list and a verb-free format string, on which `fmt.Sprintf` returns `format`
unchanged, so `format` is passed through as the rendered body. -/
def Println (w : Sink) (st : LoggerState) (level : Int) (format : String)
    (hh mm ss : Nat) : EmitResult :=
  logger.Printf w st level format hh mm ss

/-- A heap of logger instances, for stating that a clone shares no mutable
state with its source: references are indices into the list of allocated
instances. -/
structure Heap where
  mem : List LoggerState
  deriving DecidableEq

/-- Dereference an instance (out-of-range indices yield a dummy). -/
def Heap.lookup (σ : Heap) (r : Nat) : LoggerState :=
  σ.mem.getD r ⟨0, "", 0, 0⟩

/-- Mutate the instance a reference points to, in place. -/
def Heap.updateRef (σ : Heap) (r : Nat) (f : LoggerState → LoggerState) : Heap :=
  ⟨σ.mem.set r (f (Heap.lookup σ r))⟩

/-- The `Clone` method on the heap: allocates a fresh instance holding the
snapshot `logger.Clone` takes of the source, and returns its reference. -/
def Heap.cloneRef (σ : Heap) (r : Nat) : Heap × Nat :=
  (⟨σ.mem ++ [logger.Clone (Heap.lookup σ r)]⟩, σ.mem.length)

/-- `SetPrefix` through a reference. -/
def Heap.setPrefixRef (σ : Heap) (r : Nat) (p : String) : Heap :=
  Heap.updateRef σ r (fun st => logger.SetPrefix st p)

/-- `SetLevel` through a reference. -/
def Heap.setLevelRef (σ : Heap) (r : Nat) (x : Int) : Heap :=
  Heap.updateRef σ r (fun st => logger.SetLevel st x)

/-- `SetFlags` through a reference. -/
def Heap.setFlagsRef (σ : Heap) (r : Nat) (x : Int) : Heap :=
  Heap.updateRef σ r (fun st => logger.SetFlags st x)

/-- `SetOutput` through a reference. -/
def Heap.setOutputRef (σ : Heap) (r : Nat) (x : Nat) : Heap :=
  Heap.updateRef σ r (fun st => logger.SetOutput st x)

/-- Spec-side rendering of a number below 100 as exactly two zero-padded
decimal digits, for comparison with `iToA`. -/
def twoDigitChars (n : Nat) : List Char :=
  [Char.ofNat (48 + n / 10), Char.ofNat (48 + n % 10)]

/-- A sink that accepts every write. -/
def okSink : Sink := fun _ _ => none

/-- A sink that rejects every write with an error. -/
def rejectSink : Sink := fun _ _ => some "write refused"

/-- A one-instance heap used to witness the clone independence claim. -/
def demoHeap : Heap := ⟨[New LevelWarn "A" 2 0]⟩

/-! ## Helper lemmas -/

theorem print_exitCode_eq (w : Sink) (st : LoggerState) (level : Int)
    (s : String) (hh mm ss : Nat) :
    (logger.Print w st level s hh mm ss).exitCode =
      if level = LevelFatal then some 1 else none := by
  unfold logger.Print
  split <;> rfl

theorem println_exitCode_eq (w : Sink) (st : LoggerState) (level : Int)
    (args : List String) (hh mm ss : Nat) :
    (logger.Println w st level args hh mm ss).exitCode =
      if level = LevelFatal then some 1 else none := by
  unfold logger.Println
  split <;> rfl

theorem printf_exitCode_eq (w : Sink) (st : LoggerState) (level : Int)
    (s : String) (hh mm ss : Nat) :
    (logger.Printf w st level s hh mm ss).exitCode =
      if level ≤ LevelFatal then some 1 else none := by
  unfold logger.Printf
  split <;> rfl

theorem ite_some_one_ne_none (c : Prop) [Decidable c] :
    ((if c then some 1 else none) : Option Nat) ≠ none ↔ c := by
  split <;> simp_all

theorem ite_some_one_cases (c : Prop) [Decidable c] (n : Nat)
    (h : ((if c then some 1 else none) : Option Nat) = some n) : n = 1 := by
  split at h <;> simp_all


theorem iToA_two_digits (n : Nat) (h : n < 100) : iToA n 2 = twoDigitChars n := by
  have hall : ∀ m < 100, iToA m 2 = twoDigitChars m := by decide
  exact hall n h

/-! ## Claim theorems -/

/-- Claim C1: for every instance and requested level, Print and Println
terminate the process with a non-zero exit status exactly when the level is
Fatal, while Printf terminates exactly when the level is numerically at most
Fatal; this holds in both the gated and the rendered case, because the state
is universally quantified. -/
theorem fatal_exit_characterization (w : Sink) (st : LoggerState) (level : Int)
    (s : String) (args : List String) (fs : String) (hh mm ss : Nat) :
    ((logger.Print w st level s hh mm ss).exitCode ≠ none ↔ level = LevelFatal)
    ∧ ((logger.Println w st level args hh mm ss).exitCode ≠ none ↔
        level = LevelFatal)
    ∧ ((logger.Printf w st level fs hh mm ss).exitCode ≠ none ↔
        level ≤ LevelFatal)
    ∧ (∀ n, (logger.Print w st level s hh mm ss).exitCode = some n → n ≠ 0)
    ∧ (∀ n, (logger.Println w st level args hh mm ss).exitCode = some n → n ≠ 0)
    ∧ (∀ n, (logger.Printf w st level fs hh mm ss).exitCode = some n → n ≠ 0) := by
  refine ⟨?_, ?_, ?_, ?_, ?_, ?_⟩
  · rw [print_exitCode_eq]; exact ite_some_one_ne_none _
  · rw [println_exitCode_eq]; exact ite_some_one_ne_none _
  · rw [printf_exitCode_eq]; exact ite_some_one_ne_none _
  · intro n hn
    rw [print_exitCode_eq] at hn
    have := ite_some_one_cases _ n hn
    omega
  · intro n hn
    rw [println_exitCode_eq] at hn
    have := ite_some_one_cases _ n hn
    omega
  · intro n hn
    rw [printf_exitCode_eq] at hn
    have := ite_some_one_cases _ n hn
    omega

/-- Witness for C1 at a concrete input: a Fatal Print on the default
instance exits, an Error Print does not, and a Quiet Printf exits. -/
theorem fatal_exit_characterization_witness :
    (logger.Print okSink std LevelFatal "x" 1 2 3).exitCode ≠ none
    ∧ ¬ (logger.Print okSink std LevelError "x" 1 2 3).exitCode ≠ none
    ∧ (logger.Printf okSink std LevelQuiet "x" 1 2 3).exitCode ≠ none := by
  refine ⟨?_, ?_, ?_⟩
  · exact (fatal_exit_characterization okSink std LevelFatal "x" [] "x" 1 2 3).1.mpr
      (by decide)
  · intro hcon
    have := (fatal_exit_characterization okSink std LevelError "x" [] "x" 1 2 3).1.mp
      hcon
    exact absurd this (by decide)
  · exact ((fatal_exit_characterization okSink std LevelQuiet "x" [] "x" 1 2 3).2.2.1).mpr
      (by decide)

/-- Claim C2: a non-Fatal message whose level exceeds the atomically loaded
current level is a complete no-op: nothing is written and the instance state
(level, prefix, flags, sink) is unchanged, for all three entry points. -/
theorem gated_call_writes_nothing (w : Sink) (st : LoggerState) (level : Int)
    (s : String) (args : List String) (fs : String) (hh mm ss : Nat)
    (hM : level ≠ LevelFatal) (hgate : logger.GetLevel st < level) :
    (logger.Print w st level s hh mm ss).written = none
    ∧ (logger.Print w st level s hh mm ss).final = st
    ∧ (logger.Println w st level args hh mm ss).written = none
    ∧ (logger.Println w st level args hh mm ss).final = st
    ∧ (logger.Printf w st level fs hh mm ss).written = none
    ∧ (logger.Printf w st level fs hh mm ss).final = st := by
  have hg : st.level < level := hgate
  refine ⟨?_, ?_, ?_, ?_, ?_, ?_⟩ <;>
    simp [logger.Print, logger.Println, logger.Printf, hg]

/-- Witness for C2: an Info message on the default instance (level Warn). -/
theorem gated_call_writes_nothing_witness :
    ((LevelInfo ≠ LevelFatal) ∧ logger.GetLevel std < LevelInfo)
    ∧ (logger.Print okSink std LevelInfo "x" 1 2 3).written = none := by
  refine ⟨⟨by decide, by decide⟩, ?_⟩
  exact (gated_call_writes_nothing okSink std LevelInfo "x" [] "x" 1 2 3
    (by decide) (by decide)).1

/-- Claim C5 as amended: New stores level, prefix, sink and flags verbatim
(no clamping happens in New; only SetLevel clamps) and construction never
fails, being a total function. -/
theorem new_stores_fields_verbatim (level : Int) (p : String) (out : Nat)
    (flags : Int) :
    logger.GetLevel (New level p out flags) = level
    ∧ logger.GetPrefix (New level p out flags) = p
    ∧ logger.GetOutput (New level p out flags) = out
    ∧ logger.GetFlags (New level p out flags) = flags :=
  ⟨rfl, rfl, rfl, rfl⟩

/-- Counterexample to Claim C5 as stated: New(-5, ...) yields an instance
whose GetLevel is -5, strictly below Quiet, so the level is not clamped
into the valid range at construction. -/
theorem new_no_clamp_counterexample :
    logger.GetLevel (New (-5) "x" 2 0) < LevelQuiet := by decide

/-- Claim C6: SetLevel stores in-range inputs unchanged and clamps
out-of-range inputs to the nearest bound; in particular -5 clamps to Quiet
and 999 clamps to Trace.  No failure mode exists (total function). -/
theorem setLevel_clamps (st : LoggerState) (x : Int) :
    (LevelQuiet ≤ x → x ≤ LevelTrace →
      logger.GetLevel (logger.SetLevel st x) = x)
    ∧ (x < LevelQuiet → logger.GetLevel (logger.SetLevel st x) = LevelQuiet)
    ∧ (LevelTrace < x → logger.GetLevel (logger.SetLevel st x) = LevelTrace)
    ∧ logger.GetLevel (logger.SetLevel st (-5)) = LevelQuiet
    ∧ logger.GetLevel (logger.SetLevel st 999) = LevelTrace := by
  have hs : ∀ y : Int, logger.GetLevel (logger.SetLevel st y) =
      if y < 0 then 0 else if 6 < y then 6 else y := by
    intro y
    unfold logger.SetLevel logger.GetLevel LevelQuiet LevelTrace
    split_ifs <;> rfl
  simp only [LevelQuiet, LevelTrace, hs]
  refine ⟨?_, ?_, ?_, by norm_num, by norm_num⟩
  · intro h0 h6
    split_ifs <;> omega
  · intro hlt
    split_ifs <;> omega
  · intro hgt
    split_ifs <;> omega

/-- Witness for C6 at concrete inputs: an in-range input is stored as is,
and the two out-of-range examples of the claim clamp to the bounds. -/
theorem setLevel_clamps_witness :
    logger.GetLevel (logger.SetLevel std LevelInfo) = LevelInfo
    ∧ logger.GetLevel (logger.SetLevel std (-5)) = LevelQuiet
    ∧ logger.GetLevel (logger.SetLevel std 999) = LevelTrace := by
  refine ⟨?_, (setLevel_clamps std 0).2.2.2.1, (setLevel_clamps std 0).2.2.2.2⟩
  exact (setLevel_clamps std LevelInfo).1 (by decide) (by decide)


theorem goSprintln_getLast (args : List String) :
    (goSprintln args).toList.getLast? = some '\n' := by
  have hsplit : (goSprintln args).toList =
      (String.intercalate " " args).toList ++ ['\n'] := rfl
  rw [hsplit, List.getLast?_concat]

/-- Claim C3: with ColorMode off, for any level carrying a letter and any
message body not already ending in a newline, the bytes handed to the sink
are exactly the level letter, a slash, the clock as three two-digit
zero-padded fields separated by colons, a space, the prefix verbatim, a colon
and a space, the message, and one newline. -/
theorem header_format_plain (w : Sink) (st : LoggerState) (level : Int)
    (msg : String) (hh mm ss : Nat) (c : String)
    (hcolor : st.flags.land FlagColorMode = 0)
    (hchar : levelPrefixes level = some c)
    (hnl : msg.toList.getLast? ≠ some '\n')
    (hhh : hh < 24) (hmm : mm < 60) (hss : ss < 60) :
    (logger.printOut w st level msg hh mm ss).1 =
      c.toList ++ ('/' :: (twoDigitChars hh ++ (':' :: (twoDigitChars mm ++
        (':' :: (twoDigitChars ss ++ (' ' :: (st.pfx.toList ++
          (':' :: (' ' :: (msg.toList ++ ['\n']))))))))))) := by
  unfold logger.printOut renderLine colorStartBytes colorResetBytes
    logger.buildHeader
  rw [iToA_two_digits hh (by omega), iToA_two_digits mm (by omega),
    iToA_two_digits ss (by omega), hchar, if_pos (Or.inr hnl)]
  simp [hcolor, List.append_assoc]

/-- Witness for C3, the concrete instance named by the claim: at clock time
14:05:09, prefix APP, level Info, ColorMode off, emitting hello writes
exactly the bytes of the line I/14:05:09 APP: hello with one newline. -/
theorem header_format_plain_witness :
    (logger.printOut okSink (New LevelTrace "APP" 2 0) LevelInfo "hello"
        14 5 9).1 = "I/14:05:09 APP: hello\n".toList := by
  have h := header_format_plain okSink (New LevelTrace "APP" 2 0) LevelInfo
    "hello" 14 5 9 "I" (by decide) (by decide) (by decide) (by decide)
    (by decide) (by decide)
  rw [h]
  decide

/-- Claim C4: the line builder appends exactly one newline when the rendered
body is empty or does not end in a newline, and appends and removes nothing
when the body already ends in a newline, leaving the body verbatim between
header and color reset. -/
theorem trailing_newline_policy (w : Sink) (st : LoggerState) (level : Int)
    (s : String) (hh mm ss : Nat) :
    (s.toList.getLast? ≠ some '\n' →
      (logger.printOut w st level s hh mm ss).1 =
        colorStartBytes st level ++ logger.buildHeader level st.pfx hh mm ss ++
          s.toList ++ ['\n'] ++ colorResetBytes st level)
    ∧ (s.toList.getLast? = some '\n' →
      (logger.printOut w st level s hh mm ss).1 =
        colorStartBytes st level ++ logger.buildHeader level st.pfx hh mm ss ++
          s.toList ++ colorResetBytes st level) := by
  constructor
  · intro hnl
    unfold logger.printOut renderLine
    rw [if_pos (Or.inr hnl)]
  · intro hnl
    have hne : s.toList ≠ [] := by
      intro hempty
      rw [hempty] at hnl
      exact absurd hnl (by decide)
    unfold logger.printOut renderLine
    rw [if_neg (fun hor => hor.elim hne (fun hcon => hcon hnl))]
    simp

/-- Witness for C4 at concrete inputs: a body without trailing newline gets
exactly one appended, a body with one keeps its bytes verbatim. -/
theorem trailing_newline_policy_witness :
    (logger.printOut okSink std LevelInfo "abc" 1 2 3).1 =
      colorStartBytes std LevelInfo ++
        logger.buildHeader LevelInfo std.pfx 1 2 3 ++
        "abc".toList ++ ['\n'] ++ colorResetBytes std LevelInfo
    ∧ (logger.printOut okSink std LevelInfo "abc\n\n" 1 2 3).1 =
      colorStartBytes std LevelInfo ++
        logger.buildHeader LevelInfo std.pfx 1 2 3 ++
        "abc\n\n".toList ++ colorResetBytes std LevelInfo := by
  constructor
  · exact (trailing_newline_policy okSink std LevelInfo "abc" 1 2 3).1
      (by decide)
  · exact (trailing_newline_policy okSink std LevelInfo "abc\n\n" 1 2 3).2
      (by decide)

/-- Claim C10: with the stored level inside the valid range, a Quiet-level
Print or Println is never gated out: it writes a line whose level-letter
position is empty (the bytes begin with the slash immediately) and carries
no ANSI color wrapping whatever the flags are, and the call returns without
terminating the process. -/
theorem quiet_level_not_gated (w : Sink) (st : LoggerState) (s : String)
    (args : List String) (hh mm ss : Nat)
    (h0 : LevelQuiet ≤ logger.GetLevel st)
    (h6 : logger.GetLevel st ≤ LevelTrace) :
    (logger.Print w st LevelQuiet s hh mm ss).written =
      some ('/' :: (iToA hh 2 ++ (':' :: (iToA mm 2 ++ (':' :: (iToA ss 2 ++
        (' ' :: (st.pfx.toList ++ (':' :: (' ' :: (s.toList ++
          (if s.toList = [] ∨ s.toList.getLast? ≠ some '\n' then ['\n']
            else []))))))))))))
    ∧ (logger.Print w st LevelQuiet s hh mm ss).exitCode = none
    ∧ (logger.Println w st LevelQuiet args hh mm ss).written =
      some ('/' :: (iToA hh 2 ++ (':' :: (iToA mm 2 ++ (':' :: (iToA ss 2 ++
        (' ' :: (st.pfx.toList ++ (':' :: (' ' ::
          (goSprintln args).toList))))))))))
    ∧ (logger.Println w st LevelQuiet args hh mm ss).exitCode = none := by
  have hgate : ¬ st.level < LevelQuiet := by
    unfold logger.GetLevel at h0
    unfold LevelQuiet at *
    omega
  have hquiet : (LevelQuiet = LevelFatal) = False := by
    simp [LevelQuiet, LevelFatal]
  refine ⟨?_, ?_, ?_, ?_⟩
  · rw [logger.Print, if_neg hgate]
    unfold logger.printOut renderLine colorStartBytes colorResetBytes
      logger.buildHeader
    simp [levelColors, levelPrefixes, LevelQuiet, LevelFatal, LevelError,
      LevelWarn, LevelInfo, LevelDebug, LevelTrace, List.append_assoc]
  · rw [logger.Print, if_neg hgate]
    simp [hquiet]
  · rw [logger.Println, if_neg hgate]
    unfold logger.printOut renderLine colorStartBytes colorResetBytes
      logger.buildHeader
    have hlast : (goSprintln args).toList.getLast? = some '\n' :=
      goSprintln_getLast args
    have hne : ¬ (goSprintln args).toList = [] := by
      intro hempty
      rw [hempty] at hlast
      exact absurd hlast (by decide)
    simp [levelColors, levelPrefixes, LevelQuiet, LevelFatal, LevelError,
      LevelWarn, LevelInfo, LevelDebug, LevelTrace, List.append_assoc,
      hlast, hne]
    exact ⟨hne, hlast⟩
  · rw [logger.Println, if_neg hgate]
    simp [hquiet]

/-- Witness for C10: a Quiet-level Print on the default instance with
ColorMode set writes the plain uncolored line and does not exit. -/
theorem quiet_level_not_gated_witness :
    (logger.Print okSink (New LevelWarn "APP" 2 1) LevelQuiet "hi" 14 5 9).written =
      some "/14:05:09 APP: hi\n".toList
    ∧ (logger.Print okSink (New LevelWarn "APP" 2 1) LevelQuiet "hi" 14 5 9).exitCode =
      none := by
  have h := quiet_level_not_gated okSink (New LevelWarn "APP" 2 1) "hi" []
    14 5 9 (by decide) (by decide)
  refine ⟨?_, h.2.1⟩
  rw [h.1]
  decide

theorem getD_set_ne {α : Type} (l : List α) (i j : Nat) (v d : α)
    (hij : i ≠ j) : (l.set i v).getD j d = l.getD j d := by
  induction l generalizing i j with
  | nil => rfl
  | cons a t ih =>
    cases i with
    | zero =>
      cases j with
      | zero => exact absurd rfl hij
      | succ j => simp
    | succ i =>
      cases j with
      | zero => simp
      | succ j =>
        simp only [List.set, List.getD_cons_succ]
        exact ih i j (fun hcon => hij (by rw [hcon]))

theorem getD_append_left {α : Type} (l l2 : List α) (j : Nat) (d : α)
    (hj : j < l.length) : (l ++ l2).getD j d = l.getD j d := by
  induction l generalizing j with
  | nil => exact absurd hj (by simp)
  | cons a t ih =>
    cases j with
    | zero => rfl
    | succ j =>
      simp only [List.cons_append, List.getD_cons_succ]
      exact ih j (by simpa using hj)

theorem getD_append_length {α : Type} (l : List α) (x d : α) :
    (l ++ [x]).getD l.length d = x := by
  induction l with
  | nil => rfl
  | cons a t ih => simpa using ih

/-- Claim C7 (the code violates it): the package-level free function Println
is documented to behave like fmt.Println, but its body forwards to the
Printf method of the default instance.  At the failing input (requested
level Quiet, one operand, default instance at level Warn) the free function
terminates the process while the Println method on the default instance
returns normally, because the Printf fatal rule fires for Quiet; and for an
operand already ending in a newline the bytes written differ, because the
Println convention renders the operand with a further trailing newline while
the Printf path passes it through unchanged. -/
theorem free_println_delegates_to_printf :
    (Println okSink GetDefault LevelQuiet "hello" 14 5 9).exitCode = some 1
    ∧ (logger.Println okSink GetDefault LevelQuiet ["hello"] 14 5 9).exitCode
        = none
    ∧ (Println okSink GetDefault LevelError "x\n" 14 5 9).written ≠
        (logger.Println okSink GetDefault LevelError ["x\n"] 14 5 9).written := by
  decide

/-- Claim C8: a clone carries the source's level, prefix, flags and sink as
of the moment of cloning, lives at a fresh reference, and shares no mutable
state: mutating either reference through any of the four setters leaves the
instance behind the other reference unchanged. -/
theorem clone_independent (σ : Heap) (r : Nat) (hr : r < σ.mem.length) :
    (Heap.cloneRef σ r).2 ≠ r
    ∧ Heap.lookup (Heap.cloneRef σ r).1 (Heap.cloneRef σ r).2 =
        Heap.lookup σ r
    ∧ Heap.lookup (Heap.cloneRef σ r).1 r = Heap.lookup σ r
    ∧ (∀ p, Heap.lookup
        (Heap.setPrefixRef (Heap.cloneRef σ r).1 (Heap.cloneRef σ r).2 p) r =
        Heap.lookup (Heap.cloneRef σ r).1 r)
    ∧ (∀ x, Heap.lookup
        (Heap.setLevelRef (Heap.cloneRef σ r).1 (Heap.cloneRef σ r).2 x) r =
        Heap.lookup (Heap.cloneRef σ r).1 r)
    ∧ (∀ x, Heap.lookup
        (Heap.setFlagsRef (Heap.cloneRef σ r).1 (Heap.cloneRef σ r).2 x) r =
        Heap.lookup (Heap.cloneRef σ r).1 r)
    ∧ (∀ x, Heap.lookup
        (Heap.setOutputRef (Heap.cloneRef σ r).1 (Heap.cloneRef σ r).2 x) r =
        Heap.lookup (Heap.cloneRef σ r).1 r)
    ∧ (∀ p, Heap.lookup
        (Heap.setPrefixRef (Heap.cloneRef σ r).1 r p) (Heap.cloneRef σ r).2 =
        Heap.lookup (Heap.cloneRef σ r).1 (Heap.cloneRef σ r).2)
    ∧ (∀ x, Heap.lookup
        (Heap.setLevelRef (Heap.cloneRef σ r).1 r x) (Heap.cloneRef σ r).2 =
        Heap.lookup (Heap.cloneRef σ r).1 (Heap.cloneRef σ r).2)
    ∧ (∀ x, Heap.lookup
        (Heap.setFlagsRef (Heap.cloneRef σ r).1 r x) (Heap.cloneRef σ r).2 =
        Heap.lookup (Heap.cloneRef σ r).1 (Heap.cloneRef σ r).2)
    ∧ (∀ x, Heap.lookup
        (Heap.setOutputRef (Heap.cloneRef σ r).1 r x) (Heap.cloneRef σ r).2 =
        Heap.lookup (Heap.cloneRef σ r).1 (Heap.cloneRef σ r).2) := by
  have hne : σ.mem.length ≠ r := by omega
  have hner : r ≠ σ.mem.length := by omega
  have hupd : ∀ (τ : Heap) (a b : Nat) (f : LoggerState → LoggerState),
      a ≠ b → Heap.lookup (Heap.updateRef τ a f) b = Heap.lookup τ b := by
    intro τ a b f hab
    unfold Heap.updateRef Heap.lookup
    exact getD_set_ne _ _ _ _ _ hab
  refine ⟨hne, ?_, ?_, fun p => hupd _ _ _ _ hne, fun x => hupd _ _ _ _ hne,
    fun x => hupd _ _ _ _ hne, fun x => hupd _ _ _ _ hne,
    fun p => hupd _ _ _ _ hner, fun x => hupd _ _ _ _ hner,
    fun x => hupd _ _ _ _ hner, fun x => hupd _ _ _ _ hner⟩
  · show (σ.mem ++ [logger.Clone (Heap.lookup σ r)]).getD σ.mem.length _ =
      Heap.lookup σ r
    rw [getD_append_length]
    rfl
  · exact getD_append_left _ _ _ _ hr

/-- Witness for C8: cloning the only instance of a concrete heap yields a
fresh reference, and setting the clone's prefix to X leaves the source's
prefix equal to A. -/
theorem clone_independent_witness :
    0 < demoHeap.mem.length
    ∧ (Heap.cloneRef demoHeap 0).2 ≠ 0
    ∧ logger.GetPrefix (Heap.lookup
        (Heap.setPrefixRef (Heap.cloneRef demoHeap 0).1
          (Heap.cloneRef demoHeap 0).2 "X") 0) = "A" := by
  refine ⟨by decide, (clone_independent demoHeap 0 (by decide)).1, ?_⟩
  have h := (clone_independent demoHeap 0 (by decide)).2.2.2.1 "X"
  rw [h]
  decide

/-- Claim C9 as amended: for every non-gated call, the outcome is identical
whatever error the sink returns (the write error is discarded, never
surfaced, never retried) and the configuration state is unchanged; the call
returns normally whenever its fatal-termination rule does not apply, which
for Print and Println means level distinct from Fatal and for Printf means
level strictly above Fatal. -/
theorem write_error_swallowed (w w2 : Sink) (st : LoggerState) (level : Int)
    (s : String) (args : List String) (fs : String) (hh mm ss : Nat)
    (hgate : ¬ logger.GetLevel st < level) :
    logger.Print w st level s hh mm ss = logger.Print w2 st level s hh mm ss
    ∧ (logger.Print w st level s hh mm ss).final = st
    ∧ logger.Println w st level args hh mm ss =
        logger.Println w2 st level args hh mm ss
    ∧ (logger.Println w st level args hh mm ss).final = st
    ∧ logger.Printf w st level fs hh mm ss =
        logger.Printf w2 st level fs hh mm ss
    ∧ (logger.Printf w st level fs hh mm ss).final = st
    ∧ (level ≠ LevelFatal →
        (logger.Print w st level s hh mm ss).exitCode = none
        ∧ (logger.Println w st level args hh mm ss).exitCode = none)
    ∧ (LevelFatal < level →
        (logger.Printf w st level fs hh mm ss).exitCode = none) := by
  refine ⟨rfl, ?_, rfl, ?_, rfl, ?_, ?_, ?_⟩
  · unfold logger.Print
    split <;> rfl
  · unfold logger.Println
    split <;> rfl
  · unfold logger.Printf
    split <;> rfl
  · intro hM
    rw [print_exitCode_eq, println_exitCode_eq]
    exact ⟨if_neg hM, if_neg hM⟩
  · intro hM
    rw [printf_exitCode_eq]
    exact if_neg (by omega)

/-- Counterexample to Claim C9 as stated: on the default instance (level
Warn) with a sink that rejects every write, Printf at level Quiet is
non-gated and its level is not Fatal, yet the call does not return normally:
it terminates the process, because the Printf termination rule covers every
level numerically at most Fatal. -/
theorem printf_quiet_no_normal_return :
    (¬ logger.GetLevel std < LevelQuiet)
    ∧ LevelQuiet ≠ LevelFatal
    ∧ (logger.Printf rejectSink std LevelQuiet "x" 14 5 9).exitCode = some 1 := by
  decide

/-- Witness for C9: a non-gated Error-level Print on the default instance
behaves identically on a rejecting and on an accepting sink, and leaves the
instance unchanged. -/
theorem write_error_swallowed_witness :
    (¬ logger.GetLevel std < LevelError)
    ∧ logger.Print rejectSink std LevelError "x" 1 2 3 =
        logger.Print okSink std LevelError "x" 1 2 3
    ∧ (logger.Print rejectSink std LevelError "x" 1 2 3).final = std := by
  refine ⟨by decide, ?_, ?_⟩
  · exact (write_error_swallowed rejectSink okSink std LevelError "x" [] "x"
      1 2 3 (by decide)).1
  · exact (write_error_swallowed rejectSink okSink std LevelError "x" [] "x"
      1 2 3 (by decide)).2.1
